import Mathlib

/-!
Verification of the FAQ retrieval chatbot backend (`main.py`).

The development shallowly embeds the request-handling core of the service:

* the corpus loader (`faq_pairs`, lines 43-57 of the source), which splits the
  corpus text on blank lines and extracts `Q:`/`A:` pairs;
* the TF-IDF similarity retrieval (lines 57-73), modelling the defaults of
  scikit-learn's `TfidfVectorizer` (lower-casing, word tokens of at least two
  word characters, smoothed idf `log ((1+n)/(1+df)) + 1`, l2 normalisation)
  and `cosine_similarity`, with real numbers standing for the floats of the
  source, and `numpy.argmax` as a first-occurrence linear argmax;
* the prompt composer (lines 76-92) and the reply extraction with its
  fallback strings (lines 103-115).

Python string primitives (`str.strip`, `str.split`, `str.lower`,
`str.startswith`, slicing) are re-implemented structurally on `List Char`
so that the parsing layer is fully computable and decidable.
-/

/-! ### Python string primitives on `List Char` -/

/-- The whitespace characters stripped by Python's `str.strip()`
(space, tab, newline, carriage return, vertical tab, form feed). -/
def isPyWs (c : Char) : Bool :=
  c = ' ' || c = '\t' || c = '\n' || c = '\x0d' || c = '\x0b' || c = '\x0c'

/-- Python `str.strip()`: remove leading and trailing whitespace. -/
def pyStrip (s : List Char) : List Char :=
  ((s.dropWhile isPyWs).reverse.dropWhile isPyWs).reverse

/-- Python `str.split("\n")`: split on every newline character, keeping
empty pieces.  The accumulator holds the current piece, reversed. -/
def splitNL : List Char → List Char → List (List Char)
  | [], acc => [acc.reverse]
  | c :: cs, acc =>
      if c = '\n' then acc.reverse :: splitNL cs []
      else splitNL cs (c :: acc)

/-- Python `str.split("\n\n")`: split on every non-overlapping occurrence of
two consecutive newline characters, scanning left to right. -/
def splitNN : List Char → List Char → List (List Char)
  | [], acc => [acc.reverse]
  | [c], acc => [(c :: acc).reverse]
  | c₁ :: c₂ :: cs, acc =>
      if c₁ = '\n' && c₂ = '\n' then acc.reverse :: splitNN cs []
      else splitNN (c₂ :: cs) (c₁ :: acc)

/-- Python `str.lower()` (ASCII range, which is all the corpus format needs). -/
def pyLower (s : List Char) : List Char := s.map Char.toLower

/-! ### Corpus loader (`main.py` lines 43-57)

```python
with open(faq_path, "r", encoding="utf-8") as f:
    raw_faq_blocks = f.read().strip().split("\n\n")

faq_pairs = []
for block in raw_faq_blocks:
    lines = block.strip().split("\n")
    q = next((line[3:] for line in lines if line.lower().startswith("q:")), None)
    a = next((line[3:] for line in lines if line.lower().startswith("a:")), None)
    if q and a:
        faq_pairs.append((q.strip(), a.strip()))
```
-/

/-- `line.lower().startswith("q:")`. -/
def qLine (l : List Char) : Bool := List.isPrefixOf ['q', ':'] (pyLower l)

/-- `line.lower().startswith("a:")`. -/
def aLine (l : List Char) : Bool := List.isPrefixOf ['a', ':'] (pyLower l)

/-- The loop body for a single block: find the first `Q:` line and the first
`A:` line, take `line[3:]` from each, and keep the pair (stripped) when both
slices are non-empty (Python truthiness of `q and a`). -/
def parseBlock (b : List Char) : Option (String × String) :=
  match (splitNL (pyStrip b) []).find? qLine, (splitNL (pyStrip b) []).find? aLine with
  | some ql, some al =>
      if ql.drop 3 ≠ [] ∧ al.drop 3 ≠ [] then
        some (String.mk (pyStrip (ql.drop 3)), String.mk (pyStrip (al.drop 3)))
      else none
  | _, _ => none

/-- `f.read().strip().split("\n\n")`. -/
def blocksOf (text : String) : List (List Char) :=
  splitNN (pyStrip text.toList) []

/-- The loaded corpus: one `(question, answer)` pair per block that has both
a recognised `Q:` line and a recognised `A:` line with non-empty slices. -/
def faq_pairs (text : String) : List (String × String) :=
  (blocksOf text).filterMap parseBlock

/-! ### Tokenizer and vocabulary (scikit-learn `TfidfVectorizer` defaults)

`TfidfVectorizer()` lower-cases each document and tokenizes with the regex
`\b\w\w+\b`: maximal runs of word characters (alphanumeric or underscore),
keeping only runs of length at least two. -/

/-- A word character for the token pattern `\w` (ASCII range). -/
def isWordChar (c : Char) : Bool := c.isAlphanum || c = '_'

/-- Maximal runs of word characters of a character list.  The accumulator
holds the current run, reversed. -/
def wordRuns : List Char → List Char → List (List Char)
  | [], acc => if acc.isEmpty then [] else [acc.reverse]
  | c :: cs, acc =>
      if isWordChar c then wordRuns cs (c :: acc)
      else if acc.isEmpty then wordRuns cs [] else acc.reverse :: wordRuns cs []

/-- The token list of one document: lower-case, split into maximal word-char
runs, keep runs of length `≥ 2` (the default token pattern `\b\w\w+\b`). -/
def tokenizeDoc (s : String) : List String :=
  ((wordRuns (pyLower s.toList) []).filter (fun r => 2 ≤ r.length)).map String.mk

/-- All terms occurring in at least one document: the fitted vocabulary
(as a list with possible repetitions; membership is what matters). -/
def vocabTerms (docs : List String) : List String :=
  docs.flatMap tokenizeDoc

/-- The vocabulary as a finite set, used as the support of every vector. -/
def vocabF (docs : List String) : Finset String :=
  (vocabTerms docs).toFinset

/-- Term frequency of `t` in document `d`: the raw token count
(`CountVectorizer` counts). -/
def tf (d : String) (t : String) : ℕ := (tokenizeDoc d).count t

/-- Document frequency of `t` over the fitted documents. -/
def df (docs : List String) (t : String) : ℕ :=
  (docs.filter (fun d => (tokenizeDoc d).contains t)).length

/-- Smoothed inverse document frequency, the `TfidfTransformer` default
`smooth_idf=True`: `ln ((1 + n) / (1 + df)) + 1`. -/
noncomputable def idf (docs : List String) (t : String) : ℝ :=
  Real.log ((1 + docs.length) / (1 + df docs t)) + 1

/-- The (un-normalised) tf-idf vector of a document over the fitted
vocabulary, as a function on terms; terms outside the vocabulary get weight 0
(out-of-vocabulary query terms are ignored by `transform`).  The l2
normalisation applied by `TfidfVectorizer` is omitted here because
`cosine_similarity` re-normalises both sides, so the similarity values are
those of the raw vectors (scale invariance); zero vectors stay zero in both
readings. -/
noncomputable def tfidfVec (docs : List String) (d : String) : String → ℝ :=
  fun t => if t ∈ vocabTerms docs then (tf d t : ℝ) * idf docs t else 0

/-- Dot product over the fitted vocabulary. -/
noncomputable def dotP (docs : List String) (u v : String → ℝ) : ℝ :=
  ∑ t in vocabF docs, u t * v t

/-- Euclidean norm over the fitted vocabulary. -/
noncomputable def normP (docs : List String) (u : String → ℝ) : ℝ :=
  Real.sqrt (dotP docs u u)

/-- `sklearn.metrics.pairwise.cosine_similarity` of two vectors: l2-normalise
both (a zero vector is left as zero) and take the dot product, so the result
is 0 whenever either vector is zero. -/
noncomputable def cosineSim (docs : List String) (u v : String → ℝ) : ℝ :=
  if normP docs u = 0 ∨ normP docs v = 0 then 0
  else dotP docs u v / (normP docs u * normP docs v)

/-- `cosine_similarity(user_vector, question_vectors)[0]` (line 70): the
similarity of the query against every fitted question, in corpus order. -/
noncomputable def similarities (qs : List String) (query : String) : List ℝ :=
  qs.map (fun q => cosineSim qs (tfidfVec qs query) (tfidfVec qs q))

/-- `numpy.argmax` on a vector of reals: the index of the first occurrence of
the maximum value (0 on the empty list, which the service never reaches
because startup fails on an empty corpus). -/
noncomputable def argmaxIdx : List ℝ → ℕ
  | [] => 0
  | [_] => 0
  | x :: y :: xs =>
      if x < (y :: xs).getD (argmaxIdx (y :: xs)) 0 then argmaxIdx (y :: xs) + 1
      else 0

/-- `best_idx = int(similarities.argmax())` (line 71). -/
noncomputable def retrieveIdx (qs : List String) (query : String) : ℕ :=
  argmaxIdx (similarities qs query)

/-- The retrieval step (lines 69-73): the matched `(question, answer)` entry
together with its similarity score. -/
noncomputable def retrieve (pairs : List (String × String)) (query : String) :
    (String × String) × ℝ :=
  (pairs.getD (retrieveIdx (pairs.map Prod.fst) query) ("", ""),
   (similarities (pairs.map Prod.fst) query).getD
     (retrieveIdx (pairs.map Prod.fst) query) 0)

/-! ### Startup (module top level, lines 43-58)

Reading the corpus file is the only I/O of the loader; it is modelled by an
`Option String` input (`none` when `open` raises because the file is missing
or unreadable).  Fitting the vectorizer on the question list raises
scikit-learn's `ValueError` when the extracted vocabulary is empty, which in
particular happens when the corpus yields zero valid entries.  Any of these
exceptions escapes at import time, so the service does not start. -/

/-- Module-level corpus load and vectorizer fit.  `Except.error` stands for
an exception escaping at import time. -/
def startup (file : Option String) : Except String (List (String × String)) :=
  match file with
  | none => Except.error "OSError: corpus file missing or unreadable"
  | some text =>
      let pairs := faq_pairs text
      if vocabTerms (pairs.map Prod.fst) = [] then
        Except.error "ValueError: empty vocabulary; perhaps the documents only contain stop words"
      else Except.ok pairs

/-! ### Prompt composer (lines 76-92) -/

/-- A caller-supplied chat message (the `Message` pydantic model). -/
structure Message where
  role : String
  content : String
deriving DecidableEq

/-- One element of the `content` array of an outbound Bedrock message. -/
structure ContentBlock where
  text : String
deriving DecidableEq

/-- An outbound Bedrock message (`{"role": ..., "content": [{"text": ...}]}`). -/
structure BedrockMessage where
  role : String
  content : List ContentBlock
deriving DecidableEq

/-- The system prompt template of lines 76-82, instantiated with the matched
FAQ question and answer. -/
def systemPrompt (matchedQuestion matchedAnswer : String) : String :=
  "You are Zendawa Assistant, a helpful AI providing accurate, friendly information about Zendawa — " ++
  "a Kenyan telepharmacy platform offering drug ordering, pharmacy onboarding, teleconsultations, and healthcare logistics.\n\n" ++
  "If a question falls outside Zendawa’s scope (e.g., about cars, sports, or unrelated topics), respond with a gentle prompt like:\n" ++
  "\"I\x27m here to help with questions related to Zendawa’s telepharmacy services. Feel free to ask anything about our platform or healthcare-related support.\"\n\n" ++
  "To assist you better, here’s the most relevant information from Zendawa’s FAQ:\nQ: " ++
  matchedQuestion ++ "\nA: " ++ matchedAnswer

/-- The loop body of lines 87-92: wrap one caller message in the Bedrock
shape, carrying its role and content through unchanged. -/
def wrapMsg (m : Message) : BedrockMessage :=
  { role := m.role, content := [{ text := m.content }] }

/-- Lines 84-92: start from the singleton list holding the system message and
append each caller message in order (`bedrock_messages.append(...)`). -/
def composeMessages (sysPrompt : String) (msgs : List Message) : List BedrockMessage :=
  msgs.foldl (fun acc m => acc ++ [wrapMsg m])
    [{ role := "system", content := [{ text := sysPrompt }] }]

/-! ### Reply extraction and the chat handler (lines 60-115) -/

/-- Lines 103-115.  The gateway interaction is modelled by an
`Except String (List (Option String))` value: `Except.error` is any exception
raised by `invoke_model` / reading / `json.loads` (caught by the bare
`except`), and `Except.ok blocks` is the parsed `response_body.get("content",
[])`, where each block contributes `some t` when it has a `"text"` field and
`none` otherwise. -/
def extractReply (resp : Except String (List (Option String))) : String :=
  match resp with
  | Except.error _ => "Sorry, I could not retrieve a response. Please try again later."
  | Except.ok blocks =>
      let replyText := String.mk (pyStrip (String.join (blocks.filterMap id)).toList)
      if replyText = "" then "Sorry, I don\x27t have that info." else replyText

/-- Exceptions the handler can raise. -/
inductive PyErr where
  | httpException (status : ℕ) (detail : String)
  | indexError
deriving DecidableEq

/-- The `/chat` handler (lines 60-115).  `credsPresent` models the
`boto3.Session().get_credentials()` check; `resp` models the outcome of the
outbound Bedrock call, an external collaborator (the composed message list is
what the handler sends to it, and is returned here alongside the reply so
that the outbound contract is visible).  `Except.error` is an exception
escaping the handler. -/
noncomputable def chat (credsPresent : Bool) (pairs : List (String × String))
    (resp : Except String (List (Option String))) (msgs : List Message) :
    Except PyErr (List BedrockMessage × String) :=
  if credsPresent = false then
    Except.error (PyErr.httpException 500 "Missing AWS credentials for Bedrock API.")
  else
    match msgs.getLast? with
    | none => Except.error PyErr.indexError
    | some last =>
        let userMsg := String.mk (pyStrip last.content.toList)
        let qs := pairs.map Prod.fst
        let bestIdx := retrieveIdx qs userMsg
        let matchedQuestion := qs.getD bestIdx ""
        let matchedAnswer := (pairs.map Prod.snd).getD bestIdx ""
        let outbound := composeMessages (systemPrompt matchedQuestion matchedAnswer) msgs
        Except.ok (outbound, extractReply resp)

/-! ### List helper lemmas -/

theorem getD_map_of_lt {α β : Type} (f : α → β) (l : List α) (k : ℕ)
    (hk : k < l.length) (d' : β) (d : α) :
    (l.map f).getD k d' = f (l.getD k d) := by
  rw [List.getD_eq_getElem _ _ (by simpa using hk), List.getD_eq_getElem _ _ hk,
    List.getElem_map]

theorem getD_eq_zero_of_all_zero :
    ∀ (l : List ℝ) (k : ℕ), (∀ a ∈ l, a = 0) → l.getD k 0 = 0
  | [], _, _ => rfl
  | x :: _, 0, h => h x (List.mem_cons_self _ _)
  | _ :: xs, k + 1, h =>
      (List.getD_cons_succ).trans
        (getD_eq_zero_of_all_zero xs k (fun a ha => h a (List.mem_cons_of_mem _ ha)))

theorem length_filterMap_lt_of_none {α β : Type} (f : α → Option β) :
    ∀ (l : List α) (b : α), b ∈ l → f b = none → (l.filterMap f).length < l.length := by
  intro l
  induction l with
  | nil => intro b hb; cases hb
  | cons x xs ih =>
      intro b hb hnone
      rcases List.mem_cons.mp hb with hbx | hbxs
      · subst hbx
        rw [List.filterMap_cons_none hnone]
        exact Nat.lt_succ_of_le (List.length_filterMap_le f xs)
      · cases hfx : f x with
        | none =>
            rw [List.filterMap_cons_none hfx]
            exact Nat.lt_succ_of_lt (ih b hbxs hnone)
        | some y =>
            rw [List.filterMap_cons_some hfx]
            simpa using Nat.succ_lt_succ (ih b hbxs hnone)

/-! ### Properties of the linear argmax -/

theorem argmaxIdx_lt_length : ∀ (l : List ℝ), l ≠ [] → argmaxIdx l < l.length := by
  intro l
  induction l with
  | nil => intro h; exact absurd rfl h
  | cons x xs ih =>
      intro
      cases xs with
      | nil => simp [argmaxIdx]
      | cons y ys =>
          rw [argmaxIdx]
          split
          · have := ih (by simp)
            simpa using Nat.succ_lt_succ this
          · simp

theorem getD_le_getD_argmaxIdx :
    ∀ (l : List ℝ) (k : ℕ), k < l.length → l.getD k 0 ≤ l.getD (argmaxIdx l) 0 := by
  intro l
  induction l with
  | nil => intro k hk; simp at hk
  | cons x xs ih =>
      intro k hk
      cases xs with
      | nil =>
          have hk0 : k = 0 := by simp at hk; omega
          subst hk0
          simp [argmaxIdx]
      | cons y ys =>
          rw [argmaxIdx]
          split
          · rename_i hlt
            rw [List.getD_cons_succ]
            cases k with
            | zero => exact le_of_lt (by simpa using hlt)
            | succ k' =>
                rw [List.getD_cons_succ]
                exact ih k' (by simpa using hk)
          · rename_i hge
            rw [List.getD_cons_zero]
            cases k with
            | zero => simp
            | succ k' =>
                rw [List.getD_cons_succ]
                exact le_trans (ih k' (by simpa using hk)) (le_of_not_lt hge)

theorem getD_lt_of_lt_argmaxIdx :
    ∀ (l : List ℝ) (k : ℕ), k < argmaxIdx l → l.getD k 0 < l.getD (argmaxIdx l) 0 := by
  intro l
  induction l with
  | nil => intro k hk; simp [argmaxIdx] at hk
  | cons x xs ih =>
      intro k hk
      cases xs with
      | nil => simp [argmaxIdx] at hk
      | cons y ys =>
          rw [argmaxIdx] at hk ⊢
          split
          · rename_i hlt
            rw [List.getD_cons_succ]
            cases k with
            | zero => simpa using hlt
            | succ k' =>
                rw [List.getD_cons_succ]
                rw [if_pos hlt] at hk
                exact ih k' (by omega)
          · rename_i hge
            rw [if_neg hge] at hk
            omega

theorem argmaxIdx_le_of_getD_le (l : List ℝ) (k : ℕ)
    (h : l.getD (argmaxIdx l) 0 ≤ l.getD k 0) : argmaxIdx l ≤ k := by
  by_contra hlt
  push_neg at hlt
  exact absurd h (not_le.mpr (getD_lt_of_lt_argmaxIdx l k hlt))

theorem argmaxIdx_eq_zero_of_all_zero :
    ∀ (l : List ℝ), (∀ a ∈ l, a = 0) → argmaxIdx l = 0 := by
  intro l
  induction l with
  | nil => intro; rfl
  | cons x xs ih =>
      intro h
      cases xs with
      | nil => rfl
      | cons y ys =>
          rw [argmaxIdx]
          rw [if_neg]
          rw [getD_eq_zero_of_all_zero (y :: ys) _
            (fun a ha => h a (List.mem_cons_of_mem _ ha))]
          rw [h x (List.mem_cons_self _ _)]
          exact lt_irrefl 0

/-! ### Properties of the tf-idf vectors and cosine similarity -/

theorem df_le_length (docs : List String) (t : String) : df docs t ≤ docs.length :=
  List.length_filter_le _ docs

theorem idf_pos (docs : List String) (t : String) : 0 < idf docs t := by
  have hdf : (df docs t : ℝ) ≤ (docs.length : ℝ) := by
    exact_mod_cast df_le_length docs t
  have h1 : (0 : ℝ) < 1 + (df docs t : ℝ) := by positivity
  have harg : (1 : ℝ) ≤ (1 + (docs.length : ℝ)) / (1 + (df docs t : ℝ)) :=
    (one_le_div h1).mpr (by linarith)
  have hlog := Real.log_nonneg harg
  unfold idf
  linarith

theorem mem_vocabTerms_of_mem_doc (docs : List String) (d t : String)
    (hd : d ∈ docs) (ht : t ∈ tokenizeDoc d) : t ∈ vocabTerms docs :=
  List.mem_flatMap.mpr ⟨d, hd, ht⟩

theorem tfidfVec_pos_of_mem (docs : List String) (d t : String)
    (hv : t ∈ vocabTerms docs) (ht : t ∈ tokenizeDoc d) :
    0 < tfidfVec docs d t := by
  unfold tfidfVec
  rw [if_pos hv]
  have htf : 0 < tf d t := List.count_pos_iff.mpr ht
  exact mul_pos (by exact_mod_cast htf) (idf_pos docs t)

theorem dotP_self_nonneg (docs : List String) (u : String → ℝ) :
    0 ≤ dotP docs u u :=
  Finset.sum_nonneg (fun t _ => mul_self_nonneg (u t))

theorem dotP_self_pos (docs : List String) (d : String)
    (hd : d ∈ docs) (ht : tokenizeDoc d ≠ []) :
    0 < dotP docs (tfidfVec docs d) (tfidfVec docs d) := by
  obtain ⟨t₀, ht₀⟩ := List.exists_mem_of_ne_nil _ ht
  have hv : t₀ ∈ vocabTerms docs := mem_vocabTerms_of_mem_doc docs d t₀ hd ht₀
  refine Finset.sum_pos' (fun t _ => mul_self_nonneg _) ⟨t₀, ?_, ?_⟩
  · exact List.mem_toFinset.mpr hv
  · exact mul_pos (tfidfVec_pos_of_mem docs d t₀ hv ht₀) (tfidfVec_pos_of_mem docs d t₀ hv ht₀)

theorem cosineSim_self_eq_one (docs : List String) (d : String)
    (hd : d ∈ docs) (ht : tokenizeDoc d ≠ []) :
    cosineSim docs (tfidfVec docs d) (tfidfVec docs d) = 1 := by
  have hpos := dotP_self_pos docs d hd ht
  have hnorm : normP docs (tfidfVec docs d) ≠ 0 := by
    unfold normP
    exact ne_of_gt (Real.sqrt_pos.mpr hpos)
  unfold cosineSim
  rw [if_neg (by push_neg; exact ⟨hnorm, hnorm⟩)]
  unfold normP
  rw [Real.mul_self_sqrt hpos.le]
  exact div_self (ne_of_gt hpos)

theorem cosineSim_le_one (docs : List String) (u v : String → ℝ) :
    cosineSim docs u v ≤ 1 := by
  unfold cosineSim
  split
  · exact zero_le_one
  · rename_i hor
    push_neg at hor
    have hu : 0 < normP docs u :=
      lt_of_le_of_ne (Real.sqrt_nonneg _) (Ne.symm hor.1)
    have hv : 0 < normP docs v :=
      lt_of_le_of_ne (Real.sqrt_nonneg _) (Ne.symm hor.2)
    rw [div_le_one (mul_pos hu hv)]
    have hcs := Real.sum_mul_le_sqrt_mul_sqrt (vocabF docs) u v
    have hsq : ∀ w : String → ℝ,
        (∑ t in vocabF docs, w t ^ 2) = ∑ t in vocabF docs, w t * w t :=
      fun w => Finset.sum_congr rfl (fun t _ => sq (w t))
    unfold dotP at hcs ⊢
    unfold normP dotP
    calc (∑ t in vocabF docs, u t * v t)
        ≤ Real.sqrt (∑ t in vocabF docs, u t ^ 2) *
          Real.sqrt (∑ t in vocabF docs, v t ^ 2) := hcs
      _ = Real.sqrt (∑ t in vocabF docs, u t * u t) *
          Real.sqrt (∑ t in vocabF docs, v t * v t) := by rw [hsq u, hsq v]

theorem tfidfVec_eq_zero_of_oov (docs : List String) (query : String)
    (h : ∀ t ∈ tokenizeDoc query, t ∉ vocabTerms docs) :
    ∀ t, tfidfVec docs query t = 0 := by
  intro t
  unfold tfidfVec
  split
  · rename_i hmem
    have hnt : t ∉ tokenizeDoc query := fun hc => h t hc hmem
    have : tf query t = 0 := by
      unfold tf
      exact List.count_eq_zero.mpr hnt
    rw [this]
    simp
  · rfl

theorem normP_eq_zero_of_vec_zero (docs : List String) (u : String → ℝ)
    (h : ∀ t, u t = 0) : normP docs u = 0 := by
  unfold normP dotP
  rw [Finset.sum_eq_zero (fun t _ => by rw [h t, zero_mul])]
  exact Real.sqrt_zero

theorem cosineSim_zero_left (docs : List String) (u v : String → ℝ)
    (h : normP docs u = 0) : cosineSim docs u v = 0 := by
  unfold cosineSim
  rw [if_pos (Or.inl h)]

/-! ### Properties of the similarity vector -/

theorem similarities_length (qs : List String) (query : String) :
    (similarities qs query).length = qs.length :=
  List.length_map qs _

theorem similarities_getD (qs : List String) (query : String) (k : ℕ)
    (hk : k < qs.length) :
    (similarities qs query).getD k 0 =
      cosineSim qs (tfidfVec qs query) (tfidfVec qs (qs.getD k "")) := by
  unfold similarities
  rw [getD_map_of_lt _ qs k hk 0 ""]

theorem similarities_le_one (qs : List String) (query : String) :
    ∀ s ∈ similarities qs query, s ≤ 1 := by
  intro s hs
  obtain ⟨q, _, rfl⟩ := List.mem_map.mp hs
  exact cosineSim_le_one qs _ _

theorem similarities_all_zero_of_oov (qs : List String) (query : String)
    (h : ∀ t ∈ tokenizeDoc query, t ∉ vocabTerms qs) :
    ∀ s ∈ similarities qs query, s = 0 := by
  intro s hs
  obtain ⟨q, _, rfl⟩ := List.mem_map.mp hs
  exact cosineSim_zero_left qs _ _
    (normP_eq_zero_of_vec_zero qs _ (tfidfVec_eq_zero_of_oov qs query h))

/-! ### Characterisation of a successfully parsed block -/

theorem parseBlock_some (b : List Char) (q a : String)
    (h : parseBlock b = some (q, a)) :
    ∃ ql al,
      (splitNL (pyStrip b) []).find? qLine = some ql ∧
      (splitNL (pyStrip b) []).find? aLine = some al ∧
      ql.drop 3 ≠ [] ∧ al.drop 3 ≠ [] ∧
      q = String.mk (pyStrip (ql.drop 3)) ∧ a = String.mk (pyStrip (al.drop 3)) := by
  unfold parseBlock at h
  split at h
  · rename_i ql al hq ha
    split at h
    · rename_i hc
      injection h with h'
      exact ⟨ql, al, hq, ha, hc.1, hc.2,
        (congrArg Prod.fst h').symm, (congrArg Prod.snd h').symm⟩
    · cases h
  · cases h

/-! ### The prompt composer unfolds to a cons of the mapped history -/

theorem foldl_append_wrap (msgs : List Message) :
    ∀ init : List BedrockMessage,
      msgs.foldl (fun acc m => acc ++ [wrapMsg m]) init = init ++ msgs.map wrapMsg := by
  induction msgs with
  | nil => intro init; simp
  | cons m ms ih =>
      intro init
      rw [List.foldl_cons, ih, List.map_cons]
      simp

theorem composeMessages_eq (sysPrompt : String) (msgs : List Message) :
    composeMessages sysPrompt msgs =
      { role := "system", content := [{ text := sysPrompt }] } :: msgs.map wrapMsg := by
  unfold composeMessages
  rw [foldl_append_wrap]
  rfl

/-! ## Claim theorems -/

/-- Claim C5, counterexample: on the block `Q:Hello` / `A: World`, the claim
says the question text is the text following the 2-character prefix `Q:`,
i.e. `Hello`; the loader instead slices `line[3:]`, so the third character
`H` is dropped unconditionally and the stored question is `ello`. -/
theorem C5_counterexample :
    faq_pairs "Q:Hello\nA: World" = [("ello", "World")] ∧ ("ello" : String) ≠ "Hello" := by
  constructor
  · decide
  · decide

/-- Claim C5 (amended): for every corpus block line recognised
case-insensitively as a question or answer line, the loader takes as the
question/answer text exactly the text following the first THREE characters of
the line (the 2-character prefix together with the single immediately
following character, whether or not that character is a delimiter), with
leading and trailing whitespace trimmed. -/
theorem C5_amended (b : List Char) (q a : String) (h : parseBlock b = some (q, a)) :
    ∃ ql al,
      (splitNL (pyStrip b) []).find? qLine = some ql ∧
      (splitNL (pyStrip b) []).find? aLine = some al ∧
      q = String.mk (pyStrip (ql.drop 3)) ∧ a = String.mk (pyStrip (al.drop 3)) := by
  obtain ⟨ql, al, h1, h2, _, _, h5, h6⟩ := parseBlock_some b q a h
  exact ⟨ql, al, h1, h2, h5, h6⟩

/-- Witness for C5 (amended) at the concrete block `Q: hi` / `A: yo`. -/
theorem C5_amended_witness :
    parseBlock ("Q: hi\nA: yo".toList) = some ("hi", "yo") ∧
    ∃ ql al,
      (splitNL (pyStrip ("Q: hi\nA: yo".toList)) []).find? qLine = some ql ∧
      (splitNL (pyStrip ("Q: hi\nA: yo".toList)) []).find? aLine = some al ∧
      ("hi" : String) = String.mk (pyStrip (ql.drop 3)) ∧
      ("yo" : String) = String.mk (pyStrip (al.drop 3)) :=
  ⟨by decide, C5_amended ("Q: hi\nA: yo".toList) "hi" "yo" (by decide)⟩

/-- Claim C6, counterexample: the corpus text `Q:  ` / `A: hi` (two blanks
after `Q:`) is accepted by the loader — the pre-strip slice `line[3:]` is the
non-empty string of one space, so the truthiness test `if q and a` passes —
yet the stored question is the empty string after stripping, violating the
non-emptiness invariant. -/
theorem C6_counterexample :
    faq_pairs "Q:  \nA: hi" = [("", "hi")] ∧
    ¬ (∀ p ∈ faq_pairs "Q:  \nA: hi", p.1 ≠ "" ∧ p.2 ≠ "") := by
  constructor
  · decide
  · decide

/-- Claim C6 (amended): every entry of the loaded corpus comes from a block
of the corpus text whose first recognised `Q:` line and first recognised `A:`
line have NON-EMPTY `line[3:]` slices, and the stored question and answer are
exactly those slices whitespace-trimmed; the stored strings themselves may
still be empty when the corresponding slice is whitespace-only (the
truthiness check of the loader runs before stripping). -/
theorem C6_amended (text : String) (q a : String) (h : (q, a) ∈ faq_pairs text) :
    ∃ b ql al, b ∈ blocksOf text ∧
      (splitNL (pyStrip b) []).find? qLine = some ql ∧
      (splitNL (pyStrip b) []).find? aLine = some al ∧
      ql.drop 3 ≠ [] ∧ al.drop 3 ≠ [] ∧
      q = String.mk (pyStrip (ql.drop 3)) ∧ a = String.mk (pyStrip (al.drop 3)) := by
  obtain ⟨b, hb, hpb⟩ := List.mem_filterMap.mp h
  obtain ⟨ql, al, h1, h2, h3, h4, h5, h6⟩ := parseBlock_some b q a hpb
  exact ⟨b, ql, al, hb, h1, h2, h3, h4, h5, h6⟩

/-- Witness for C6 (amended) at the concrete corpus `Q: ok\nA: fine`. -/
theorem C6_amended_witness :
    (("ok", "fine") ∈ faq_pairs "Q: ok\nA: fine") ∧
    ∃ b ql al, b ∈ blocksOf "Q: ok\nA: fine" ∧
      (splitNL (pyStrip b) []).find? qLine = some ql ∧
      (splitNL (pyStrip b) []).find? aLine = some al ∧
      ql.drop 3 ≠ [] ∧ al.drop 3 ≠ [] ∧
      ("ok" : String) = String.mk (pyStrip (ql.drop 3)) ∧
      ("fine" : String) = String.mk (pyStrip (al.drop 3)) :=
  ⟨by decide, C6_amended "Q: ok\nA: fine" "ok" "fine" (by decide)⟩

/-- Claim C7: a corpus block lacking a recognised question line or lacking a
recognised answer line contributes no entry (`parseBlock` returns `none`) and
is thereby silently omitted from the loaded sequence, whose length then drops
strictly below the block count; no exception is involved (the loader is a
total function). -/
theorem C7_dropped (text : String) (b : List Char) (hb : b ∈ blocksOf text)
    (hmiss : (splitNL (pyStrip b) []).find? qLine = none ∨
             (splitNL (pyStrip b) []).find? aLine = none) :
    parseBlock b = none ∧ (faq_pairs text).length < (blocksOf text).length := by
  have hnone : parseBlock b = none := by
    unfold parseBlock
    rcases hmiss with h | h
    · rw [h]
    · rw [h]
      cases (splitNL (pyStrip b) []).find? qLine <;> rfl
  exact ⟨hnone, length_filterMap_lt_of_none parseBlock (blocksOf text) b hb hnone⟩

/-- Witness for C7 at the corpus `hello\n\nQ: q1\nA: a1`, whose first block
has no `Q:`/`A:` lines at all. -/
theorem C7_dropped_witness :
    ("hello".toList ∈ blocksOf "hello\n\nQ: q1\nA: a1") ∧
    (splitNL (pyStrip ("hello".toList)) []).find? qLine = none ∧
    parseBlock ("hello".toList) = none ∧
    (faq_pairs "hello\n\nQ: q1\nA: a1").length < (blocksOf "hello\n\nQ: q1\nA: a1").length :=
  ⟨by decide, by decide,
    C7_dropped "hello\n\nQ: q1\nA: a1" ("hello".toList) (by decide) (Or.inl (by decide))⟩

/-- Claim C8: when the corpus file is missing or unreadable (the `open` call
raises) or the corpus text yields zero valid entries (scikit-learn's `fit`
raises on an empty vocabulary), the module-level startup code raises, so the
service does not start.  The spec groups these startup exceptions under the
error kind `CorpusLoadError`. -/
theorem C8_startup_fails (file : Option String)
    (h : file = none ∨ ∃ t, file = some t ∧ faq_pairs t = []) :
    ∃ e, startup file = Except.error e := by
  rcases h with rfl | ⟨t, rfl, hempty⟩
  · exact ⟨_, rfl⟩
  · refine ⟨"ValueError: empty vocabulary; perhaps the documents only contain stop words", ?_⟩
    show (if vocabTerms ((faq_pairs t).map Prod.fst) = [] then _ else _) = _
    rw [hempty]
    rfl

/-- Witness for C8 at the concrete empty corpus text. -/
theorem C8_startup_fails_witness :
    ((some "" : Option String) = none ∨
      ∃ t, (some "" : Option String) = some t ∧ faq_pairs t = []) ∧
    ∃ e, startup (some "") = Except.error e :=
  ⟨Or.inr ⟨"", rfl, by decide⟩, C8_startup_fails (some "") (Or.inr ⟨"", rfl, by decide⟩)⟩

/-- Claim C4: for every caller-supplied history `[m1, ..., mN]` the composed
outbound sequence is exactly `[system, m1, ..., mN]`: length `N + 1`, the
message at position 0 is the single composer-added system-role message, and
for every `i` the message at position `i + 1` carries the role and content of
`m(i+1)` unchanged (the content string is wrapped in the Bedrock block shape
`[{"text": ...}]` but not modified, and no message is dropped or reordered). -/
theorem C4_prompt_ordering (sysPrompt : String) (msgs : List Message) :
    (composeMessages sysPrompt msgs).length = msgs.length + 1 ∧
    (composeMessages sysPrompt msgs)[0]? =
      some { role := "system", content := [{ text := sysPrompt }] } ∧
    ∀ i : ℕ, (composeMessages sysPrompt msgs)[i + 1]? =
      (msgs[i]?).map (fun m => { role := m.role, content := [{ text := m.content }] }) := by
  rw [composeMessages_eq]
  refine ⟨by simp, by simp, ?_⟩
  intro i
  rw [List.getElem?_cons_succ, List.getElem?_map]
  rfl

/-- Claim C9: when the outbound completion call fails (any exception from the
gateway call) or the response body is malformed (its content blocks carry no
text, including a missing `content` key, modelled as the empty block list),
the handler still returns `Except.ok` — a normal reply, never an escaping
exception — and the reply is one of the two user-facing fallback strings of
lines 111 and 115. -/
theorem C9_gateway_fallback (pairs : List (String × String)) (msgs : List Message)
    (m : Message) (resp : Except String (List (Option String)))
    (hlast : msgs.getLast? = some m)
    (hfail : (∃ e, resp = Except.error e) ∨
             (∃ blocks, resp = Except.ok blocks ∧
               pyStrip (String.join (blocks.filterMap id)).toList = [])) :
    ∃ outbound fallback,
      chat true pairs resp msgs = Except.ok (outbound, fallback) ∧
      (fallback = "Sorry, I could not retrieve a response. Please try again later." ∨
       fallback = "Sorry, I don\x27t have that info.") := by
  refine ⟨composeMessages
      (systemPrompt
        ((pairs.map Prod.fst).getD
          (retrieveIdx (pairs.map Prod.fst) (String.mk (pyStrip m.content.toList))) "")
        ((pairs.map Prod.snd).getD
          (retrieveIdx (pairs.map Prod.fst) (String.mk (pyStrip m.content.toList))) ""))
      msgs, extractReply resp, ?_, ?_⟩
  · show (match msgs.getLast? with
      | none => Except.error PyErr.indexError
      | some last =>
          Except.ok (composeMessages
            (systemPrompt
              ((pairs.map Prod.fst).getD
                (retrieveIdx (pairs.map Prod.fst) (String.mk (pyStrip last.content.toList))) "")
              ((pairs.map Prod.snd).getD
                (retrieveIdx (pairs.map Prod.fst) (String.mk (pyStrip last.content.toList))) ""))
            msgs, extractReply resp)) = _
    rw [hlast]
  · rcases hfail with ⟨e, rfl⟩ | ⟨blocks, rfl, hempty⟩
    · exact Or.inl rfl
    · refine Or.inr ?_
      show (if String.mk (pyStrip (String.join (blocks.filterMap id)).toList) = "" then _ else _) = _
      rw [hempty]
      rfl

/-- Witness for C9 at a concrete one-message history and a failing gateway
call. -/
theorem C9_gateway_fallback_witness :
    ([Message.mk "user" "hi"].getLast? = some (Message.mk "user" "hi")) ∧
    ∃ outbound fallback,
      chat true [("q", "a")] (Except.error "boom") [Message.mk "user" "hi"] =
        Except.ok (outbound, fallback) ∧
      (fallback = "Sorry, I could not retrieve a response. Please try again later." ∨
       fallback = "Sorry, I don\x27t have that info.") :=
  ⟨by decide,
    C9_gateway_fallback [("q", "a")] [Message.mk "user" "hi"] (Message.mk "user" "hi")
      (Except.error "boom") (by decide) (Or.inl ⟨"boom", rfl⟩)⟩

/-- Claim C10: a chat request whose message list is empty makes the handler
raise an unhandled `IndexError` at `chat_req.messages[-1]` (line 67) — there
is no guard on the history being non-empty — for every corpus and every
gateway behaviour (assuming the credential check of line 63 passes, which is
the only code that runs earlier). -/
theorem C10_empty_history_raises (pairs : List (String × String))
    (resp : Except String (List (Option String))) :
    chat true pairs resp [] = Except.error PyErr.indexError := rfl

/-- Claim C3: for every query all of whose tokens are outside the fitted
vocabulary (including a query that is empty after tokenization), the
retrieval step yields similarity 0 against every question and returns the
index-0 entry with score 0; nothing is raised (the step is a total
function). -/
theorem C3_oov_query (pairs : List (String × String)) (query : String)
    (_hne : pairs ≠ [])
    (hoov : ∀ t ∈ tokenizeDoc query, t ∉ vocabTerms (pairs.map Prod.fst)) :
    (∀ s ∈ similarities (pairs.map Prod.fst) query, s = 0) ∧
    retrieveIdx (pairs.map Prod.fst) query = 0 ∧
    retrieve pairs query = (pairs.getD 0 ("", ""), 0) := by
  have hz := similarities_all_zero_of_oov (pairs.map Prod.fst) query hoov
  have ham : retrieveIdx (pairs.map Prod.fst) query = 0 :=
    argmaxIdx_eq_zero_of_all_zero _ hz
  refine ⟨hz, ham, ?_⟩
  show (pairs.getD (retrieveIdx (pairs.map Prod.fst) query) ("", ""),
    (similarities (pairs.map Prod.fst) query).getD
      (retrieveIdx (pairs.map Prod.fst) query) 0) = _
  rw [ham, getD_eq_zero_of_all_zero _ 0 hz]

/-- Witness for C3: a one-entry corpus and the out-of-vocabulary query `zz`. -/
theorem C3_oov_query_witness :
    (([("aa bb", "xx")] : List (String × String)) ≠ []) ∧
    (∀ t ∈ tokenizeDoc "zz", t ∉ vocabTerms ([("aa bb", "xx")].map Prod.fst)) ∧
    ((∀ s ∈ similarities ([("aa bb", "xx")].map Prod.fst) "zz", s = 0) ∧
     retrieveIdx ([("aa bb", "xx")].map Prod.fst) "zz" = 0 ∧
     retrieve [("aa bb", "xx")] "zz" = ([("aa bb", "xx")].getD 0 ("", ""), 0)) :=
  ⟨by decide, by decide, C3_oov_query [("aa bb", "xx")] "zz" (by decide) (by decide)⟩

/-- Claim C2: whenever the maximal similarity is attained by two or more
corpus entries (indices `i < j` both attaining the maximum), the retrieval
step returns the lowest index attaining that maximum: the value at the
returned index equals the maximum, the returned index is at most `i`, and it
is at most every index attaining the maximum.  The model is a pure function,
so the result is the same on every run. -/
theorem C2_tie_break (qs : List String) (query : String) (i j : ℕ)
    (hij : i < j) (hj : j < qs.length)
    (hmax : ∀ k : ℕ, k < qs.length →
      (similarities qs query).getD k 0 ≤ (similarities qs query).getD i 0)
    (_htie : (similarities qs query).getD i 0 = (similarities qs query).getD j 0) :
    (similarities qs query).getD (retrieveIdx qs query) 0 =
      (similarities qs query).getD i 0 ∧
    retrieveIdx qs query ≤ i ∧
    ∀ k : ℕ, k < qs.length →
      (similarities qs query).getD k 0 = (similarities qs query).getD i 0 →
      retrieveIdx qs query ≤ k := by
  have hi : i < qs.length := lt_trans hij hj
  have hlen : (similarities qs query).length = qs.length := similarities_length qs query
  have hne : similarities qs query ≠ [] := by
    intro hc
    rw [hc] at hlen
    simp at hlen
    omega
  have hamlt : argmaxIdx (similarities qs query) < qs.length :=
    hlen ▸ argmaxIdx_lt_length _ hne
  have h1 : (similarities qs query).getD (retrieveIdx qs query) 0 =
      (similarities qs query).getD i 0 :=
    le_antisymm (hmax _ hamlt) (getD_le_getD_argmaxIdx _ i (hlen ▸ hi))
  refine ⟨h1, argmaxIdx_le_of_getD_le _ i h1.le, ?_⟩
  intro k _ hk
  refine argmaxIdx_le_of_getD_le _ k ?_
  show (similarities qs query).getD (retrieveIdx qs query) 0 ≤
    (similarities qs query).getD k 0
  rw [h1, hk]

/-- Witness for C2: two identical questions tie at the maximal similarity for
the query equal to both, and index 0 is returned. -/
theorem C2_tie_break_witness :
    (0 : ℕ) < 1 ∧ (1 : ℕ) < (["aa bb", "aa bb"] : List String).length ∧
    (∀ k : ℕ, k < (["aa bb", "aa bb"] : List String).length →
      (similarities ["aa bb", "aa bb"] "aa bb").getD k 0 ≤
        (similarities ["aa bb", "aa bb"] "aa bb").getD 0 0) ∧
    ((similarities ["aa bb", "aa bb"] "aa bb").getD (retrieveIdx ["aa bb", "aa bb"] "aa bb") 0 =
      (similarities ["aa bb", "aa bb"] "aa bb").getD 0 0 ∧
     retrieveIdx ["aa bb", "aa bb"] "aa bb" ≤ 0 ∧
     ∀ k : ℕ, k < (["aa bb", "aa bb"] : List String).length →
       (similarities ["aa bb", "aa bb"] "aa bb").getD k 0 =
         (similarities ["aa bb", "aa bb"] "aa bb").getD 0 0 →
       retrieveIdx ["aa bb", "aa bb"] "aa bb" ≤ k) := by
  have hmax : ∀ k : ℕ, k < (["aa bb", "aa bb"] : List String).length →
      (similarities ["aa bb", "aa bb"] "aa bb").getD k 0 ≤
        (similarities ["aa bb", "aa bb"] "aa bb").getD 0 0 := by
    intro k hk
    simp only [List.length_cons, List.length_nil] at hk
    interval_cases k
    · exact le_refl _
    · show (similarities ["aa bb", "aa bb"] "aa bb").getD 1 0 ≤ _
      simp [similarities]
  have htie : (similarities ["aa bb", "aa bb"] "aa bb").getD 0 0 =
      (similarities ["aa bb", "aa bb"] "aa bb").getD 1 0 := by
    simp [similarities]
  exact ⟨Nat.zero_lt_one, by simp, hmax,
    C2_tie_break ["aa bb", "aa bb"] "aa bb" 0 1 Nat.zero_lt_one (by simp) hmax htie⟩

/-- Claim C1, counterexample: in a corpus with two entries carrying the same
question text `aa bb` but different answers, querying with the exact question
text of entry 1 returns entry 0 (the first maximal index of `argmax`), not
entry 1 itself, so "returns E itself" fails for E = entry 1. -/
theorem C1_counterexample :
    faq_pairs "Q: aa bb\nA: one\n\nQ: aa bb\nA: two" =
      [("aa bb", "one"), ("aa bb", "two")] ∧
    (retrieve [("aa bb", "one"), ("aa bb", "two")] "aa bb").1 = ("aa bb", "one") ∧
    (("aa bb", "one") : String × String) ≠ ("aa bb", "two") := by
  refine ⟨by decide, ?_, by decide⟩
  have h0 : retrieveIdx (List.map Prod.fst [("aa bb", "one"), ("aa bb", "two")]) "aa bb" = 0 := by
    show argmaxIdx (similarities ["aa bb", "aa bb"] "aa bb") = 0
    simp [similarities, argmaxIdx]
  show List.getD [("aa bb", "one"), ("aa bb", "two")]
    (retrieveIdx (List.map Prod.fst [("aa bb", "one"), ("aa bb", "two")]) "aa bb")
    ("", "") = ("aa bb", "one")
  rw [h0]
  decide

/-- Claim C1 (amended): querying with the exact question text of entry `i`
yields similarity exactly 1 at index `i`, provided that question has at least
one token (the default token pattern drops single-character tokens, so a
token-less question would instead score 0 everywhere); the returned score is
1, the returned index is the LOWEST index attaining similarity 1 — every
earlier index scores strictly below 1 — and in particular it is at most `i`,
but it is entry `i` itself only when no earlier entry ties at similarity 1
(e.g. a duplicate question). -/
theorem C1_round_trip_amended (pairs : List (String × String)) (i : ℕ)
    (hi : i < pairs.length)
    (htok : tokenizeDoc (pairs.getD i ("", "")).1 ≠ []) :
    (retrieve pairs (pairs.getD i ("", "")).1).2 = 1 ∧
    (similarities (pairs.map Prod.fst) (pairs.getD i ("", "")).1).getD i 0 = 1 ∧
    retrieveIdx (pairs.map Prod.fst) (pairs.getD i ("", "")).1 ≤ i ∧
    ∀ k : ℕ, k < retrieveIdx (pairs.map Prod.fst) (pairs.getD i ("", "")).1 →
      (similarities (pairs.map Prod.fst) (pairs.getD i ("", "")).1).getD k 0 < 1 := by
  have hile : i < (pairs.map Prod.fst).length := by
    rw [List.length_map]
    exact hi
  have hqs : (pairs.map Prod.fst).getD i "" = (pairs.getD i ("", "")).1 :=
    getD_map_of_lt Prod.fst pairs i hi "" ("", "")
  have hmem : (pairs.getD i ("", "")).1 ∈ pairs.map Prod.fst := by
    rw [← hqs, List.getD_eq_getElem _ _ hile]
    exact List.getElem_mem hile
  have hsi : (similarities (pairs.map Prod.fst) (pairs.getD i ("", "")).1).getD i 0 = 1 := by
    rw [similarities_getD _ _ i hile, hqs]
    exact cosineSim_self_eq_one _ _ hmem htok
  have hlen : (similarities (pairs.map Prod.fst) (pairs.getD i ("", "")).1).length =
      (pairs.map Prod.fst).length := similarities_length _ _
  have hisim : i < (similarities (pairs.map Prod.fst) (pairs.getD i ("", "")).1).length := by
    rw [hlen]
    exact hile
  have hne : similarities (pairs.map Prod.fst) (pairs.getD i ("", "")).1 ≠ [] :=
    List.ne_nil_of_length_pos (by omega)
  have hamlt : argmaxIdx (similarities (pairs.map Prod.fst) (pairs.getD i ("", "")).1) <
      (similarities (pairs.map Prod.fst) (pairs.getD i ("", "")).1).length :=
    argmaxIdx_lt_length _ hne
  have hvam : (similarities (pairs.map Prod.fst) (pairs.getD i ("", "")).1).getD
      (argmaxIdx (similarities (pairs.map Prod.fst) (pairs.getD i ("", "")).1)) 0 = 1 := by
    refine le_antisymm ?_ ?_
    · refine similarities_le_one (pairs.map Prod.fst) ((pairs.getD i ("", "")).1) _ ?_
      rw [List.getD_eq_getElem _ _ hamlt]
      exact List.getElem_mem hamlt
    · rw [← hsi]
      exact getD_le_getD_argmaxIdx _ i hisim
  refine ⟨hvam, hsi, ?_, ?_⟩
  · exact argmaxIdx_le_of_getD_le _ i (le_of_eq (hvam.trans hsi.symm))
  · intro k hk
    exact hvam ▸ getD_lt_of_lt_argmaxIdx _ k hk

/-- Witness for C1 (amended) at a one-entry corpus whose question `aa bb`
tokenizes non-trivially. -/
theorem C1_round_trip_amended_witness :
    (0 : ℕ) < ([("aa bb", "xx")] : List (String × String)).length ∧
    tokenizeDoc (([("aa bb", "xx")] : List (String × String)).getD 0 ("", "")).1 ≠ [] ∧
    ((retrieve [("aa bb", "xx")] (([("aa bb", "xx")] : List (String × String)).getD 0 ("", "")).1).2 = 1 ∧
     (similarities ([("aa bb", "xx")].map Prod.fst)
        (([("aa bb", "xx")] : List (String × String)).getD 0 ("", "")).1).getD 0 0 = 1 ∧
     retrieveIdx ([("aa bb", "xx")].map Prod.fst)
        (([("aa bb", "xx")] : List (String × String)).getD 0 ("", "")).1 ≤ 0 ∧
     ∀ k : ℕ, k < retrieveIdx ([("aa bb", "xx")].map Prod.fst)
        (([("aa bb", "xx")] : List (String × String)).getD 0 ("", "")).1 →
       (similarities ([("aa bb", "xx")].map Prod.fst)
          (([("aa bb", "xx")] : List (String × String)).getD 0 ("", "")).1).getD k 0 < 1) :=
  ⟨by decide, by decide, C1_round_trip_amended [("aa bb", "xx")] 0 (by decide) (by decide)⟩
